import Mathlib

/-!
# Verification of the ApexxCloud Node.js storage SDK (`src/sdk.js`)

Shallow embedding of the SDK's client logic: request signing
(HMAC-SHA256 over `METHOD\nPATH\nTIMESTAMP`), per-operation query-string
construction (with JavaScript `||` defaulting and `URLSearchParams`
serialization semantics), per-operation validation, pre-signed URL
assembly, and transport error mapping.

The HTTP transport itself (`axios`), multipart form bodies and the file
system are external collaborators of the SDK; operations are embedded as
functions from their arguments to either a validation error or the fully
built request descriptor (method, path, headers) that the SDK hands to
the transport.  JavaScript's ambient wall clock (`new Date()`) is made an
explicit `timestamp` argument.
-/

namespace Crypto

/-- Truncate to a 32-bit word. -/
def w32 (n : Nat) : Nat := n % 4294967296

/-- 32-bit right rotation by `n` bits. -/
def rotr (n x : Nat) : Nat := w32 (x / 2 ^ n + x % 2 ^ n * 2 ^ (32 - n))

/-- Logical right shift. -/
def shr (n x : Nat) : Nat := x / 2 ^ n

/-- 32-bit bitwise complement (valid for `x < 2^32`). -/
def not32 (x : Nat) : Nat := 4294967295 - x

/-- SHA-256 `Ch` function. -/
def ch (x y z : Nat) : Nat := (x &&& y) ^^^ (not32 x &&& z)

/-- SHA-256 `Maj` function. -/
def maj (x y z : Nat) : Nat := (x &&& y) ^^^ (x &&& z) ^^^ (y &&& z)

/-- SHA-256 `Σ0`. -/
def bsig0 (x : Nat) : Nat := rotr 2 x ^^^ rotr 13 x ^^^ rotr 22 x

/-- SHA-256 `Σ1`. -/
def bsig1 (x : Nat) : Nat := rotr 6 x ^^^ rotr 11 x ^^^ rotr 25 x

/-- SHA-256 `σ0`. -/
def ssig0 (x : Nat) : Nat := rotr 7 x ^^^ rotr 18 x ^^^ shr 3 x

/-- SHA-256 `σ1`. -/
def ssig1 (x : Nat) : Nat := rotr 17 x ^^^ rotr 19 x ^^^ shr 10 x

/-- The 64 SHA-256 round constants. -/
def K : List Nat :=
  [1116352408, 1899447441, 3049323471, 3921009573, 961987163,
   1508970993, 2453635748, 2870763221, 3624381080, 310598401,
   607225278, 1426881987, 1925078388, 2162078206, 2614888103,
   3248222580, 3835390401, 4022224774, 264347078, 604807628,
   770255983, 1249150122, 1555081692, 1996064986, 2554220882,
   2821834349, 2952996808, 3210313671, 3336571891, 3584528711,
   113926993, 338241895, 666307205, 773529912, 1294757372,
   1396182291, 1695183700, 1986661051, 2177026350, 2456956037,
   2730485921, 2820302411, 3259730800, 3345764771, 3516065817,
   3600352804, 4094571909, 275423344, 430227734, 506948616,
   659060556, 883997877, 958139571, 1322822218, 1537002063,
   1747873779, 1955562222, 2024104815, 2227730452, 2361852424,
   2428436474, 2756734187, 3204031479, 3329325298]

/-- SHA-256 hash state: the eight 32-bit working variables. -/
structure St where
  a : Nat
  b : Nat
  c : Nat
  d : Nat
  e : Nat
  f : Nat
  g : Nat
  h : Nat

/-- Initial SHA-256 hash value. -/
def initSt : St :=
  ⟨1779033703, 3144134277, 1013904242, 2773480762,
   1359893119, 2600822924, 528734635, 1541459225⟩

/-- One SHA-256 round, consuming a pair of a round constant and a
message-schedule word. -/
def round (st : St) (kw : Nat × Nat) : St :=
  let t1 := w32 (st.h + bsig1 st.e + ch st.e st.f st.g + kw.1 + kw.2)
  let t2 := w32 (bsig0 st.a + maj st.a st.b st.c)
  ⟨w32 (t1 + t2), st.a, st.b, st.c, w32 (st.d + t1), st.e, st.f, st.g⟩

/-- Extend the message schedule by `n` further words.  The accumulator
holds the schedule so far in reverse order (most recent word first). -/
def extendSched : Nat → List Nat → List Nat
  | 0, acc => acc
  | n + 1, acc =>
      let w := w32 (ssig1 (acc.getD 1 0) + acc.getD 6 0 +
                    ssig0 (acc.getD 14 0) + acc.getD 15 0)
      extendSched n (w :: acc)

/-- The full 64-word message schedule of a 16-word block. -/
def schedule (block : List Nat) : List Nat :=
  (extendSched 48 block.reverse).reverse

/-- Compress a single 16-word block into the hash state. -/
def compress (st : St) (block : List Nat) : St :=
  let f := (K.zip (schedule block)).foldl round st
  ⟨w32 (st.a + f.a), w32 (st.b + f.b), w32 (st.c + f.c), w32 (st.d + f.d),
   w32 (st.e + f.e), w32 (st.f + f.f), w32 (st.g + f.g), w32 (st.h + f.h)⟩

/-- Group a byte list into big-endian 32-bit words. -/
def wordsOfBytes : List Nat → List Nat
  | b0 :: b1 :: b2 :: b3 :: rest =>
      (b0 * 16777216 + b1 * 65536 + b2 * 256 + b3) :: wordsOfBytes rest
  | _ => []

/-- Big-endian 8-byte encoding of a length value. -/
def lenBytes (n : Nat) : List Nat :=
  [n / 2 ^ 56 % 256, n / 2 ^ 48 % 256, n / 2 ^ 40 % 256, n / 2 ^ 32 % 256,
   n / 2 ^ 24 % 256, n / 2 ^ 16 % 256, n / 2 ^ 8 % 256, n % 256]

/-- SHA-256 padding for a message of `len` bytes. -/
def padding (len : Nat) : List Nat :=
  128 :: List.replicate ((64 - (len + 9) % 64) % 64) 0 ++ lenBytes (8 * len)

/-- Split a (padded) byte stream into `n` blocks of 16 words each. -/
def toBlocks : Nat → List Nat → List (List Nat)
  | 0, _ => []
  | n + 1, l => wordsOfBytes (l.take 64) :: toBlocks n (l.drop 64)

/-- Big-endian bytes of one 32-bit word. -/
def bytesOfWord (w : Nat) : List Nat :=
  [w / 16777216 % 256, w / 65536 % 256, w / 256 % 256, w % 256]

/-- The 32 digest bytes of a final hash state. -/
def digestBytes (st : St) : List Nat :=
  bytesOfWord st.a ++ bytesOfWord st.b ++ bytesOfWord st.c ++ bytesOfWord st.d ++
  bytesOfWord st.e ++ bytesOfWord st.f ++ bytesOfWord st.g ++ bytesOfWord st.h

/-- SHA-256 of a byte list. -/
def sha256Bytes (msg : List Nat) : List Nat :=
  let padded := msg ++ padding msg.length
  digestBytes ((toBlocks (padded.length / 64) padded).foldl compress initSt)

/-- UTF-8 encoding of one Unicode code point. -/
def encChar (n : Nat) : List Nat :=
  if n < 128 then [n]
  else if n < 2048 then [192 + n / 64, 128 + n % 64]
  else if n < 65536 then [224 + n / 4096, 128 + n / 64 % 64, 128 + n % 64]
  else [240 + n / 262144, 128 + n / 4096 % 64, 128 + n / 64 % 64, 128 + n % 64]

/-- UTF-8 bytes of a string. -/
def utf8Bytes (s : String) : List Nat :=
  s.data.foldr (fun c acc => encChar c.toNat ++ acc) []

/-- Lowercase hex digit. -/
def hexChar (n : Nat) : Char :=
  if n < 10 then Char.ofNat (48 + n) else Char.ofNat (87 + n)

/-- Lowercase hex encoding of a byte list. -/
def bytesToHex (l : List Nat) : String :=
  String.mk (l.foldr (fun b acc => hexChar (b / 16) :: hexChar (b % 16) :: acc) [])

/-- HMAC-SHA256 over byte lists (RFC 2104, block size 64). -/
def hmacSha256Bytes (key msg : List Nat) : List Nat :=
  let k0 := if key.length > 64 then sha256Bytes key else key
  let k := k0 ++ List.replicate (64 - k0.length) 0
  sha256Bytes (k.map (fun b => b ^^^ 92) ++
    sha256Bytes (k.map (fun b => b ^^^ 54) ++ msg))

/-- `crypto.createHmac('sha256', key).update(msg).digest('hex')`:
hex-encoded HMAC-SHA256 of UTF-8 strings. -/
def hmacSha256Hex (key msg : String) : String :=
  bytesToHex (hmacSha256Bytes (utf8Bytes key) (utf8Bytes msg))

/-- Hex SHA-256 of a UTF-8 string. -/
def sha256Hex (s : String) : String :=
  bytesToHex (sha256Bytes (utf8Bytes s))

end Crypto

namespace Sdk

open Crypto

/-! ## JavaScript value semantics

Optional string/number arguments are `Option`-valued; `none` models a
JavaScript `undefined` (absent) value.  `jsTruthy`/`jsOr` reproduce
JavaScript truthiness and the `a || b` operator on such values;
`jsStr`/`jsStrNat` reproduce the stringification `URLSearchParams`
applies to its values (`undefined` becomes the literal string
`"undefined"`). -/

/-- Truthiness of a string-or-undefined value: `undefined` and `""` are
falsy. -/
def jsTruthy : Option String → Bool
  | none => false
  | some s => !s.isEmpty

/-- Truthiness of a number-or-undefined value: `undefined` and `0` are
falsy. -/
def jsTruthyNat : Option Nat → Bool
  | none => false
  | some n => n != 0

/-- JavaScript `a || b` on string-or-undefined values. -/
def jsOr (a b : Option String) : Option String :=
  if jsTruthy a then a else b

/-- JavaScript `a || d` where `d` is a number literal default. -/
def jsOrNat (a : Option Nat) (d : Nat) : Nat :=
  match a with
  | some n => if n = 0 then d else n
  | none => d

/-- String conversion of a string-or-undefined value. -/
def jsStr : Option String → String
  | none => "undefined"
  | some s => s

/-- String conversion of a number-or-undefined value. -/
def jsStrNat : Option Nat → String
  | none => "undefined"
  | some n => toString n

/-- `options.totalParts?.toString() || '0'`. -/
def natToStringOr0 : Option Nat → String
  | none => "0"
  | some n => toString n

/-! ## `URLSearchParams` serialization

The `application/x-www-form-urlencoded` serializer used by
`URLSearchParams.toString()`: bytes `*`, `-`, `.`, `_`, digits and ASCII
letters pass through, space becomes `+`, everything else is
percent-encoded with uppercase hex over UTF-8 bytes. -/

/-- Bytes the form-urlencoded serializer leaves unescaped. -/
def formSafe (b : Nat) : Bool :=
  b == 42 || b == 45 || b == 46 || b == 95 ||
  (48 ≤ b && b ≤ 57) || (65 ≤ b && b ≤ 90) || (97 ≤ b && b ≤ 122)

/-- Uppercase hex digit. -/
def hexUpper (n : Nat) : Char :=
  if n < 10 then Char.ofNat (48 + n) else Char.ofNat (55 + n)

/-- Serialize one byte. -/
def encByte (b : Nat) : List Char :=
  if formSafe b then [Char.ofNat b]
  else if b == 32 then ['+']
  else ['%', hexUpper (b / 16), hexUpper (b % 16)]

/-- Form-urlencode a string. -/
def formEncode (s : String) : String :=
  String.mk ((utf8Bytes s).foldr (fun b acc => encByte b ++ acc) [])

/-- Join strings with `"&"` separators. -/
def ampJoin : List String → String
  | [] => ""
  | [x] => x
  | x :: y :: xs => x ++ "&" ++ ampJoin (y :: xs)

/-- `URLSearchParams.toString()` on an ordered parameter list. -/
def urlSearchParamsString (params : List (String × String)) : String :=
  ampJoin (params.map fun p => formEncode p.1 ++ "=" ++ formEncode p.2)

/-! ## JSON bodies and `JSON.stringify` -/

/-- A parsed JSON document (the `data` field of a transport response). -/
inductive Json where
  | null
  | bool (b : Bool)
  | num (n : Int)
  | str (s : String)
  | arr (elems : List Json)
  | obj (fields : List (String × Json))

/-- JSON string escaping as performed by `JSON.stringify`. -/
def jsonEscapeChar (c : Char) : List Char :=
  if c = '"' then ['\\', '"']
  else if c = '\\' then ['\\', '\\']
  else if c = '\n' then ['\\', 'n']
  else if c = '\t' then ['\\', 't']
  else if c = '\r' then ['\\', 'r']
  else if c.toNat = 8 then ['\\', 'b']
  else if c.toNat = 12 then ['\\', 'f']
  else if c.toNat < 32 then
    ['\\', 'u', '0', '0', hexChar (c.toNat / 16), hexChar (c.toNat % 16)]
  else [c]

/-- Quoted JSON string literal. -/
def jsonQuote (s : String) : String :=
  "\"" ++ String.mk (s.data.foldr (fun c acc => jsonEscapeChar c ++ acc) []) ++ "\""

mutual

/-- `JSON.stringify` on a document. -/
def jsonStringify : Json → String
  | .null => "null"
  | .bool true => "true"
  | .bool false => "false"
  | .num n => toString n
  | .str s => jsonQuote s
  | .arr xs => "[" ++ jsonElems xs ++ "]"
  | .obj fs => "\x7b" ++ jsonMembers fs ++ "\x7d"

/-- Comma-joined serialization of array elements. -/
def jsonElems : List Json → String
  | [] => ""
  | [x] => jsonStringify x
  | x :: y :: xs => jsonStringify x ++ "," ++ jsonElems (y :: xs)

/-- Comma-joined serialization of object members. -/
def jsonMembers : List (String × Json) → String
  | [] => ""
  | [(k, v)] => jsonQuote k ++ ":" ++ jsonStringify v
  | (k, v) :: g :: fs => jsonQuote k ++ ":" ++ jsonStringify v ++ "," ++ jsonMembers (g :: fs)

end

/-- JavaScript property access `doc.name` on a parsed JSON body: a
field lookup on objects; `undefined` (`.ok none`) on the other non-null
values, whose boxed wrappers have no such own property; and on `null` a
thrown `TypeError` (`.error name`, carrying the property name whose
read failed — the engine-specific message text is not modelled). -/
def propAccess (doc : Json) (name : String) : Except String (Option Json) :=
  match doc with
  | .null => .error name
  | .obj fields => .ok (fields.lookup name)
  | _ => .ok none

/-- JavaScript truthiness of a JSON value. -/
def jsonTruthy : Json → Bool
  | .null => false
  | .bool b => b
  | .num n => n != 0
  | .str s => !s.isEmpty
  | .arr _ => true
  | .obj _ => true

mutual

/-- JavaScript `String()` conversion of a JSON value, as applied by the
template literal in `handleError`. -/
def jsTemplate : Json → String
  | .null => "null"
  | .bool true => "true"
  | .bool false => "false"
  | .num n => toString n
  | .str s => s
  | .arr xs => jsTemplateElems xs
  | .obj _ => "[object Object]"

/-- `Array.prototype.join` with `","`: elements converted with
`String()`, except `null` elements which join as the empty string. -/
def jsTemplateElems : List Json → String
  | [] => ""
  | [.null] => ""
  | [x] => jsTemplate x
  | .null :: y :: xs => "," ++ jsTemplateElems (y :: xs)
  | x :: y :: xs => jsTemplate x ++ "," ++ jsTemplateElems (y :: xs)

end

/-! ## Client construction (`constructor`) -/

/-- The `config` argument object passed to the constructor; absent
properties are `none`. -/
structure Config where
  accessKey : Option String := none
  secretKey : Option String := none
  region : Option String := none
  bucket : Option String := none

/-- `this.config` of a successfully constructed client. -/
structure ClientConfig where
  accessKey : String
  secretKey : String
  baseUrl : String
  region : Option String
  defaultBucket : Option String

/-- The constructor: `if (!config.accessKey || !config.secretKey) throw`,
otherwise the frozen `this.config` record (with the fixed base URL). -/
def construct (config : Config) : Except String ClientConfig :=
  if !jsTruthy config.accessKey || !jsTruthy config.secretKey then
    .error "Access key and secret key are required"
  else
    .ok { accessKey := jsStr config.accessKey
          secretKey := jsStr config.secretKey
          baseUrl := "https://api.apexxcloud.com"
          region := config.region
          defaultBucket := config.bucket }

/-! ## Request signing -/

/-- Result record of `generateSignature`. -/
structure Signed where
  signature : String
  timestamp : String

/-- `generateSignature(method, path, timestamp)`: hex HMAC-SHA256, keyed
by the secret key, of `` `${method}\n${path}\n${timestamp}` ``.  The
JavaScript default argument `timestamp = new Date().toISOString()` is
modelled by passing the ambient clock value explicitly. -/
def generateSignature (cfg : ClientConfig) (method path timestamp : String) : Signed :=
  let stringToSign := method ++ "\n" ++ path ++ "\n" ++ timestamp
  { signature := hmacSha256Hex cfg.secretKey stringToSign
    timestamp := timestamp }

/-- `generateHeaders(method, path)` at clock value `now`. -/
def generateHeaders (cfg : ClientConfig) (method path now : String) : List (String × String) :=
  let s := generateSignature cfg method path now
  [("X-Access-Key", cfg.accessKey), ("X-Signature", s.signature), ("X-Timestamp", s.timestamp)]

/-- The request descriptor an operation hands to the transport
collaborator (`axios`); bodies (multipart forms, JSON payloads) belong to
the collaborator contract and are not modelled. -/
structure Request where
  method : String
  path : String
  headers : List (String × String)
deriving DecidableEq

/-- The request built by `makeRequest(method, path)` at clock value
`now`: the signed headers plus the method and path (the transport URL is
`cfg.baseUrl ++ path`). -/
def makeRequest (cfg : ClientConfig) (method path now : String) : Request :=
  { method := method, path := path, headers := generateHeaders cfg method path now }

/-! ## Transport error mapping -/

/-- A JavaScript error value as thrown by the transport: its `message`
and, for HTTP-level failures, a `response` carrying the status code and
parsed body. -/
structure JsError where
  message : String
  response : Option (Nat × Json) := none

/-- `handleError(error)`: with a `response`, a fresh
`` `API Error ${status}: ${data.message || JSON.stringify(data)}` ``
error; without one, the original error unchanged.  Evaluating
`data.message` on a `null` body does not return: it throws a
`TypeError`, modelled as `.error` carrying the thrown exception (the
normal return value is `.ok`). -/
def handleError (error : JsError) : Except JsError JsError :=
  match error.response with
  | some sd =>
      match propAccess sd.2 "message" with
      | .error name =>
          .error { message := "TypeError: cannot read property " ++ name ++ " of null" }
      | .ok msgField =>
          .ok { message := "API Error " ++ toString sd.1 ++ ": " ++
                  (match msgField with
                   | some v => if jsonTruthy v then jsTemplate v else jsonStringify sd.2
                   | none => jsonStringify sd.2)
                response := none }
  | none => .ok error

/-- The settled result of `makeRequest`'s try/catch around the transport
call: a fulfilled call resolves with `response.data`; a rejected one
rejects with `handleError(error)` — or, when `handleError` itself
throws, with that thrown exception. -/
def makeRequestOutcome (transport : Except JsError Json) : Except JsError Json :=
  match transport with
  | .ok data => .ok data
  | .error e =>
      match handleError e with
      | .ok mapped => .error mapped
      | .error thrown => .error thrown

/-- The message of the error `handleError` returns, `none` when it
throws instead of returning. -/
def returnedMessage : Except JsError JsError → Option String
  | .ok e => some e.message
  | .error _ => none

/-! ## File and bucket operations

Each operation is embedded as a function from its arguments (plus the
ambient clock `now`) to `Except String Request`: `.error msg` models a
synchronously thrown validation `Error` — the transport is never invoked
— and `.ok req` is the signed request handed to `makeRequest`.  File
payloads (`fileData`, `filePart`) are byte buffers, `none` when the
argument is absent (a `Buffer`, even empty, is truthy in JavaScript). -/

/-- Options object of `uploadFile`. -/
structure UploadOptions where
  key : Option String := none
  bucketName : Option String := none
  region : Option String := none
  visibility : Option String := none
  filename : Option String := none
  contentType : Option String := none

/-- Query parameters built by `uploadFile`. -/
def uploadFileParams (cfg : ClientConfig) (options : UploadOptions) : List (String × String) :=
  [("bucket_name", jsStr (jsOr options.bucketName cfg.defaultBucket)),
   ("region", jsStr (jsOr options.region cfg.region)),
   ("visibility", jsStr (jsOr options.visibility (some "public"))),
   ("key", jsStr options.key)]

/-- `uploadFile(fileData, options)` (the multipart form body and its
length probing belong to the transport collaborator). -/
def uploadFile (cfg : ClientConfig) (fileData : Option (List Nat)) (options : UploadOptions)
    (now : String) : Except String Request :=
  if fileData.isNone then .error "fileData is required for upload operation"
  else if !jsTruthy options.key then .error "key is required for upload operation"
  else
    .ok (makeRequest cfg "PUT"
      ("/api/v1/files/upload?" ++ urlSearchParamsString (uploadFileParams cfg options)) now)

/-- Options object of `deleteFile` / `purgeFile`. -/
structure KeyedOptions where
  bucketName : Option String := none
  region : Option String := none

/-- Query parameters built by `deleteFile` and `purgeFile`. -/
def deleteFileParams (cfg : ClientConfig) (key : Option String) (options : KeyedOptions) :
    List (String × String) :=
  [("bucket_name", jsStr (jsOr options.bucketName cfg.defaultBucket)),
   ("region", jsStr (jsOr options.region cfg.region)),
   ("key", jsStr key)]

/-- `deleteFile(key, options)`. -/
def deleteFile (cfg : ClientConfig) (key : Option String) (options : KeyedOptions)
    (now : String) : Except String Request :=
  if !jsTruthy key then .error "key is required for delete operation"
  else
    .ok (makeRequest cfg "DELETE"
      ("/api/v1/files/delete?" ++ urlSearchParamsString (deleteFileParams cfg key options)) now)

/-- `purgeFile(key, options)`. -/
def purgeFile (cfg : ClientConfig) (key : Option String) (options : KeyedOptions)
    (now : String) : Except String Request :=
  if !jsTruthy key then .error "key is required for purge operation"
  else
    .ok (makeRequest cfg "POST"
      ("/api/v1/files/purge?" ++ urlSearchParamsString (deleteFileParams cfg key options)) now)

/-- Options object of `startMultipartUpload`. -/
structure StartMultipartOptions where
  bucketName : Option String := none
  region : Option String := none
  totalParts : Option Nat := none
  mimeType : Option String := none
  visibility : Option String := none

/-- Query parameters built by `startMultipartUpload`. -/
def startMultipartParams (cfg : ClientConfig) (key : Option String)
    (options : StartMultipartOptions) : List (String × String) :=
  [("bucket_name", jsStr (jsOr options.bucketName cfg.defaultBucket)),
   ("region", jsStr (jsOr options.region cfg.region)),
   ("key", jsStr key),
   ("mimeType", jsStr (jsOr options.mimeType (some "application/octet-stream"))),
   ("visibility", jsStr (jsOr options.visibility (some "public"))),
   ("totalParts", natToStringOr0 options.totalParts)]

/-- `startMultipartUpload(key, options)`. -/
def startMultipartUpload (cfg : ClientConfig) (key : Option String)
    (options : StartMultipartOptions) (now : String) : Except String Request :=
  if !jsTruthy key then .error "key is required for multipart upload"
  else if !jsTruthyNat options.totalParts then .error "totalParts is required for multipart upload"
  else
    .ok (makeRequest cfg "POST"
      ("/api/v1/files/multipart/start?" ++
        urlSearchParamsString (startMultipartParams cfg key options)) now)

/-- Options object of `uploadPart`. -/
structure UploadPartOptions where
  bucketName : Option String := none
  region : Option String := none
  totalParts : Option Nat := none
  uploadId : Option String := none
  partNumber : Option Nat := none
  mimeType : Option String := none
  key : Option String := none

/-- Query parameters built by `uploadPart`. -/
def uploadPartParams (cfg : ClientConfig) (key : Option String) (options : UploadPartOptions) :
    List (String × String) :=
  [("bucket_name", jsStr (jsOr options.bucketName cfg.defaultBucket)),
   ("region", jsStr (jsOr options.region cfg.region)),
   ("partNumber", jsStrNat options.partNumber),
   ("key", jsStr key),
   ("totalParts", jsStrNat options.totalParts)]

/-- `uploadPart(key, filePart, options)`. -/
def uploadPart (cfg : ClientConfig) (key : Option String) (filePart : Option (List Nat))
    (options : UploadPartOptions) (now : String) : Except String Request :=
  if !jsTruthy options.uploadId then .error "uploadId is required for upload part"
  else if !jsTruthyNat options.partNumber then .error "partNumber is required for upload part"
  else if !jsTruthy key then .error "key is required for upload part"
  else if !jsTruthyNat options.totalParts then .error "totalParts is required for upload part"
  else
    .ok (makeRequest cfg "POST"
      ("/api/v1/files/multipart/" ++ jsStr options.uploadId ++ "?" ++
        urlSearchParamsString (uploadPartParams cfg key options)) now)

/-- One entry of the `parts` array. -/
structure Part where
  ETag : String
  PartNumber : Nat

/-- Options object of `completeMultipartUpload` / `cancelMultipartUpload`. -/
structure MultipartEndOptions where
  bucketName : Option String := none
  region : Option String := none
  uploadId : Option String := none

/-- Query parameters built by `completeMultipartUpload` and
`cancelMultipartUpload`. -/
def multipartEndParams (cfg : ClientConfig) (key : Option String)
    (options : MultipartEndOptions) : List (String × String) :=
  [("bucket_name", jsStr (jsOr options.bucketName cfg.defaultBucket)),
   ("region", jsStr (jsOr options.region cfg.region)),
   ("key", jsStr key)]

/-- `completeMultipartUpload(key, parts, options)`; `parts = none` models
a non-array argument (`Array.isArray` fails). -/
def completeMultipartUpload (cfg : ClientConfig) (key : Option String)
    (parts : Option (List Part)) (options : MultipartEndOptions) (now : String) :
    Except String Request :=
  if !jsTruthy options.uploadId then .error "uploadId is required for complete multipart upload"
  else if parts.isNone then .error "parts must be an array of \x7bETag, PartNumber\x7d"
  else if !jsTruthy key then .error "key is required for complete multipart upload"
  else
    .ok (makeRequest cfg "POST"
      ("/api/v1/files/multipart/" ++ jsStr options.uploadId ++ "/complete?" ++
        urlSearchParamsString (multipartEndParams cfg key options)) now)

/-- `cancelMultipartUpload(key, options)`. -/
def cancelMultipartUpload (cfg : ClientConfig) (key : Option String)
    (options : MultipartEndOptions) (now : String) : Except String Request :=
  if !jsTruthy options.uploadId then .error "uploadId is required for cancel multipart upload"
  else if !jsTruthy key then .error "key is required for cancel multipart upload"
  else
    .ok (makeRequest cfg "DELETE"
      ("/api/v1/files/multipart/" ++ jsStr options.uploadId ++ "?" ++
        urlSearchParamsString (multipartEndParams cfg key options)) now)

/-- Options object of `getBucketContents` (`prefixParam` embeds the
`prefix` property, whose source name is a reserved word here). -/
structure GetContentsOptions where
  bucketName : Option String := none
  region : Option String := none
  prefixParam : Option String := none
  page : Option Nat := none
  limit : Option Nat := none

/-- Query parameters built by `getBucketContents`. -/
def getBucketContentsParams (cfg : ClientConfig) (options : GetContentsOptions) :
    List (String × String) :=
  [("bucket_name", jsStr (jsOr options.bucketName cfg.defaultBucket)),
   ("region", jsStr (jsOr options.region cfg.region)),
   ("prefix", jsStr (jsOr options.prefixParam (some ""))),
   ("page", toString (jsOrNat options.page 1)),
   ("limit", toString (jsOrNat options.limit 20))]

/-- `getBucketContents(options)`: no validation; always sends. -/
def getBucketContents (cfg : ClientConfig) (options : GetContentsOptions) (now : String) :
    Except String Request :=
  .ok (makeRequest cfg "GET"
    ("/api/v1/files/contents?" ++ urlSearchParamsString (getBucketContentsParams cfg options)) now)

/-! ## `generateSignedUrl` -/

/-- Options object of `generateSignedUrl`. -/
structure SignedUrlOptions where
  key : Option String := none
  bucketName : Option String := none
  region : Option String := none
  visibility : Option String := none
  expiresIn : Option Nat := none
  uploadId : Option String := none
  partNumber : Option Nat := none
  totalParts : Option Nat := none
  mimeType : Option String := none

/-- What `generateSignedUrl` resolves with: an assembled URL string for
the URL-producing types, or — for the `download` type — the signed
request it immediately issues (whose transport response it returns). -/
inductive SignedUrlOutcome where
  | url (u : String)
  | request (req : Request)
deriving DecidableEq

/-- The `validOperations` list. -/
def validOperations : List String :=
  ["upload", "delete", "start-multipart", "uploadpart", "completemultipart",
   "cancelmultipart", "download"]

/-- The tail of `generateSignedUrl` shared by all URL-producing types:
sign `method` over `path ++ "?" ++ queryParams.toString()` at the
captured `timestamp`, append `access_key`, `signature`, `timestamp` to
the query parameters, and assemble the absolute URL. -/
def finishSignedUrl (cfg : ClientConfig) (method path : String)
    (queryParams : List (String × String)) (timestamp : String) :
    Except String SignedUrlOutcome :=
  let fullPath := path ++ "?" ++ urlSearchParamsString queryParams
  let signature := (generateSignature cfg method fullPath timestamp).signature
  let finalParams := queryParams ++
    [("access_key", cfg.accessKey), ("signature", signature), ("timestamp", timestamp)]
  .ok (.url (cfg.baseUrl ++ path ++ "?" ++ urlSearchParamsString finalParams))

/-- The initial `URLSearchParams` of `generateSignedUrl`. -/
def signedUrlBaseParams (cfg : ClientConfig) (options : SignedUrlOptions) :
    List (String × String) :=
  [("bucket_name", jsStr (jsOr options.bucketName cfg.defaultBucket)),
   ("region", jsStr (jsOr options.region cfg.region)),
   ("key", jsStr options.key)]

/-- `generateSignedUrl(type, options)` at clock value `now` (the
`timestamp` the source captures with `new Date().toISOString()`). -/
def generateSignedUrl (cfg : ClientConfig) (type : String) (options : SignedUrlOptions)
    (now : String) : Except String SignedUrlOutcome :=
  if !validOperations.contains type then
    .error ("Unsupported operation type: " ++ type)
  else
    let queryParams := signedUrlBaseParams cfg options
    if type = "upload" then
      finishSignedUrl cfg "PUT" "/api/v1/files/upload"
        (queryParams ++ [("visibility", jsStr (jsOr options.visibility (some "public")))]) now
    else if type = "delete" then
      if !jsTruthy options.key then .error "key is required for delete operation"
      else finishSignedUrl cfg "DELETE" "/api/v1/files/delete" queryParams now
    else if type = "start-multipart" then
      if !jsTruthy options.key then .error "key is required for start-multipart operation"
      else if !jsTruthyNat options.totalParts then
        .error "totalParts is required for start-multipart operation"
      else if !jsTruthy options.mimeType then
        .error "mimeType is required for start-multipart operation"
      else
        finishSignedUrl cfg "POST" "/api/v1/files/multipart/start"
          (queryParams ++
            [("totalParts", jsStrNat options.totalParts),
             ("mimeType", jsStr options.mimeType),
             ("visibility", jsStr (jsOr options.visibility (some "public")))]) now
    else if type = "uploadpart" then
      if !jsTruthy options.uploadId then .error "uploadId is required for uploadpart operation"
      else if !jsTruthyNat options.partNumber then
        .error "partNumber is required for uploadpart operation"
      else if !jsTruthy options.key then .error "key is required for uploadpart operation"
      else if !jsTruthyNat options.totalParts then
        .error "totalParts is required for uploadpart operation"
      else
        finishSignedUrl cfg "POST" ("/api/v1/files/multipart/" ++ jsStr options.uploadId)
          (queryParams ++
            [("partNumber", jsStrNat options.partNumber),
             ("totalParts", jsStrNat options.totalParts)]) now
    else if type = "completemultipart" then
      if !jsTruthy options.uploadId then
        .error "uploadId is required for completemultipart operation"
      else if !jsTruthy options.key then .error "key is required for completemultipart operation"
      else
        finishSignedUrl cfg "POST"
          ("/api/v1/files/multipart/" ++ jsStr options.uploadId ++ "/complete") queryParams now
    else if type = "cancelmultipart" then
      if !jsTruthy options.uploadId then
        .error "uploadId is required for cancelmultipart operation"
      else if !jsTruthy options.key then .error "key is required for cancelmultipart operation"
      else
        finishSignedUrl cfg "DELETE"
          ("/api/v1/files/multipart/" ++ jsStr options.uploadId) queryParams now
    else if type = "download" then
      if !jsTruthy options.key then .error "key is required for signed URL operation"
      else
        .ok (.request (makeRequest cfg "GET"
          ("/api/v1/files/signed-url?" ++
            urlSearchParamsString
              (queryParams ++ [("expiresIn", toString (jsOrNat options.expiresIn 3600))])) now))
    else
      .error ("Unsupported operation type: " ++ type)

/-! ## Helpers for stating properties, and concrete example inputs -/

/-- Is `pat` a prefix of `l`? -/
def charsPrefix : List Char → List Char → Bool
  | [], _ => true
  | _ :: _, [] => false
  | a :: as, b :: bs => a == b && charsPrefix as bs

/-- Does `pat` occur inside `l`? -/
def charsContain (pat : List Char) : List Char → Bool
  | [] => pat.isEmpty
  | c :: cs => charsPrefix pat (c :: cs) || charsContain pat cs

/-- Does the substring `pat` occur in `s`? -/
def containsStr (s pat : String) : Bool :=
  charsContain pat.data s.data

/-- The path of a built request, for statements that project away the
signed headers. -/
def pathOf : Except String Request → Option String
  | .ok r => some r.path
  | .error _ => none

/-- Decidable equality of `Except` results, for concrete evaluation. -/
instance {e a : Type} [DecidableEq e] [DecidableEq a] : DecidableEq (Except e a) := fun x y =>
  match x, y with
  | .ok u, .ok v =>
      if h : u = v then .isTrue (by rw [h]) else .isFalse (by intro hh; cases hh; exact h rfl)
  | .error u, .error v =>
      if h : u = v then .isTrue (by rw [h]) else .isFalse (by intro hh; cases hh; exact h rfl)
  | .ok _, .error _ => .isFalse (by intro hh; cases hh)
  | .error _, .ok _ => .isFalse (by intro hh; cases hh)

/-- A transport rejection whose body has a `message` field holding the
empty string. -/
def errFalsyMessageEx : JsError :=
  { message := "Request failed", response := some (404, Json.obj [("message", Json.str "")]) }

/-- Example client configuration: the record produced by
`new ApexxCloud({accessKey: 'test-access', secretKey: 'test-secret',
region: 'r', bucket: 'db'})`. -/
def cfgEx : ClientConfig :=
  { accessKey := "test-access", secretKey := "test-secret",
    baseUrl := "https://api.apexxcloud.com", region := some "r", defaultBucket := some "db" }

/-- Example client constructed with credentials only (no region, no
default bucket). -/
def cfgBare : ClientConfig :=
  { accessKey := "test-access", secretKey := "test-secret",
    baseUrl := "https://api.apexxcloud.com", region := none, defaultBucket := none }

/-- A fixed ISO-8601 clock value used in concrete examples. -/
def tsEx : String := "2024-03-14T12:00:00.000Z"

/-- The signature embedded in `urlUploadEx` (hex HMAC-SHA256, key
`test-secret`, over `PUT\n/api/v1/files/upload?bucket_name=b&region=r&key=k&visibility=private\n` ++ `tsEx`). -/
def sigUploadEx : String :=
  "615f2d2013b521b0add02c7e4900c18f0b0616a215852e9ad0c1be43a2c6b897"

/-- The path+query a caller of `urlUploadEx` sends: everything after the
base URL, auth parameters included. -/
def callerPathUploadEx : String :=
  "/api/v1/files/upload?bucket_name=b&region=r&key=k&visibility=private&access_key=test-access&signature=" ++
  sigUploadEx ++ "&timestamp=2024-03-14T12%3A00%3A00.000Z"

/-- The URL `generateSignedUrl('upload', {bucketName: 'b', key: 'k',
visibility: 'private'})` returns on `cfgEx` at clock `tsEx`. -/
def urlUploadEx : String :=
  "https://api.apexxcloud.com" ++ callerPathUploadEx

/-- The URL `generateSignedUrl('upload', {bucketName: 'b'})` (no `key`)
returns on `cfgEx` at clock `tsEx`. -/
def urlUploadNoKeyEx : String :=
  "https://api.apexxcloud.com/api/v1/files/upload?bucket_name=b&region=r&key=undefined&visibility=public&access_key=test-access&signature=fd6ba8b179a06c02450cf5edf5d875db9122f7ccfcd4ae9dfd3889de3ae1aca3&timestamp=2024-03-14T12%3A00%3A00.000Z"

end Sdk

namespace Sdk

/-! # Validation of the embedded crypto against standard test vectors -/

set_option maxRecDepth 8000 in
/-- FIPS 180-4 test vector: SHA-256 of the empty message. -/
theorem sha256Hex_empty_vector :
    Crypto.sha256Hex "" =
      "e3b0c44298fc1c149afbf4c8996fb92427ae41e4649b934ca495991b7852b855" := by decide

set_option maxRecDepth 8000 in
/-- FIPS 180-4 test vector: SHA-256 of `"abc"`. -/
theorem sha256Hex_abc_vector :
    Crypto.sha256Hex "abc" =
      "ba7816bf8f01cfea414140de5dae2223b00361a396177a9cb410ff61f20015ad" := by decide

set_option maxRecDepth 20000 in
/-- Standard HMAC-SHA256 test vector (key `"key"`). -/
theorem hmacSha256Hex_vector :
    Crypto.hmacSha256Hex "key" "The quick brown fox jumps over the lazy dog" =
      "f7bc83f430538424b13298e6aa6fb143ef4d59a14946175997479dbc2d1a3cd8" := by decide

/-! # Shared lemmas -/

/-- The empty string is `isEmpty`. -/
theorem empty_isEmpty : ("" : String).isEmpty = true := rfl

/-- A non-empty string is not `isEmpty`. -/
theorem isEmpty_false_of_ne (s : String) (h : s ≠ "") : s.isEmpty = false := by
  cases hs : s.isEmpty
  · rfl
  · exact absurd ((String.isEmpty_iff s).mp hs) h

/-- A present, non-empty string value is truthy. -/
theorem jsTruthy_some_true (s : String) (h : s ≠ "") : jsTruthy (some s) = true := by
  simp [jsTruthy, isEmpty_false_of_ne s h]

/-- `ampJoin` distributes over the append of nonempty lists. -/
theorem ampJoin_append (xs ys : List String) (hx : xs ≠ []) (hy : ys ≠ []) :
    ampJoin (xs ++ ys) = ampJoin xs ++ "&" ++ ampJoin ys := by
  induction xs with
  | nil => exact absurd rfl hx
  | cons x xs ih =>
    cases xs with
    | nil =>
      cases ys with
      | nil => exact absurd rfl hy
      | cons y ys => simp [ampJoin]
    | cons x' xs' =>
      calc ampJoin ((x :: x' :: xs') ++ ys)
          = x ++ "&" ++ ampJoin (x' :: xs' ++ ys) := rfl
        _ = x ++ "&" ++ (ampJoin (x' :: xs') ++ "&" ++ ampJoin ys) := by
              rw [ih (by simp)]
        _ = (x ++ "&" ++ ampJoin (x' :: xs')) ++ "&" ++ ampJoin ys := by
              simp [String.append_assoc]
        _ = ampJoin (x :: x' :: xs') ++ "&" ++ ampJoin ys := rfl

/-- Serialization preserves parameter order: appended parameters are
serialized after the existing ones. -/
theorem urlSearchParamsString_append (ps qs : List (String × String))
    (hp : ps ≠ []) (hq : qs ≠ []) :
    urlSearchParamsString (ps ++ qs) =
      urlSearchParamsString ps ++ "&" ++ urlSearchParamsString qs := by
  unfold urlSearchParamsString
  rw [List.map_append, ampJoin_append] <;> simp [hp, hq]

/-! # Claims -/

/-- C1: for every method, path and supplied timestamp,
`generateSignature` returns that timestamp unchanged together with the
hex HMAC-SHA256 digest, keyed by the configured secret key, of
`method ++ "\n" ++ path ++ "\n" ++ timestamp`; consequently two calls
with identical `(method, path, timestamp, secretKey)` yield the
identical signature. -/
theorem C1_generateSignature_hmac_deterministic (cfg cfg' : ClientConfig)
    (method path timestamp : String) (hkey : cfg.secretKey = cfg'.secretKey) :
    generateSignature cfg method path timestamp =
      { signature := Crypto.hmacSha256Hex cfg.secretKey
          (method ++ "\n" ++ path ++ "\n" ++ timestamp)
        timestamp := timestamp } ∧
    generateSignature cfg method path timestamp =
      generateSignature cfg' method path timestamp := by
  exact ⟨rfl, by simp [generateSignature, hkey]⟩

/-- Witness for C1 at `(GET, /test/path, tsEx)` on `cfgEx`. -/
theorem C1_generateSignature_hmac_deterministic_witness :
    cfgEx.secretKey = cfgEx.secretKey ∧
    (generateSignature cfgEx "GET" "/test/path" tsEx =
      { signature := Crypto.hmacSha256Hex cfgEx.secretKey
          ("GET" ++ "\n" ++ "/test/path" ++ "\n" ++ tsEx)
        timestamp := tsEx } ∧
     generateSignature cfgEx "GET" "/test/path" tsEx =
       generateSignature cfgEx "GET" "/test/path" tsEx) :=
  ⟨rfl, C1_generateSignature_hmac_deterministic cfgEx cfgEx "GET" "/test/path" tsEx rfl⟩

/-- C4: construction fails with exactly
`"Access key and secret key are required"` whenever `accessKey` or
`secretKey` is missing or empty, and succeeds (producing a client
carrying both keys) when both are non-empty. -/
theorem C4_construct_requires_keys :
    (∀ config : Config,
        (config.accessKey = none ∨ config.accessKey = some "" ∨
         config.secretKey = none ∨ config.secretKey = some "") →
        construct config = .error "Access key and secret key are required") ∧
    (∀ (config : Config) (a s : String), config.accessKey = some a → a ≠ "" →
        config.secretKey = some s → s ≠ "" →
        ∃ c : ClientConfig, construct config = .ok c ∧ c.accessKey = a ∧ c.secretKey = s) := by
  constructor
  · intro config h
    have hc : (!jsTruthy config.accessKey || !jsTruthy config.secretKey) = true := by
      rcases h with h | h | h | h <;> simp [h, jsTruthy, empty_isEmpty]
    unfold construct
    simp [hc]
  · intro config a s ha hna hs hns
    have hc : (!jsTruthy config.accessKey || !jsTruthy config.secretKey) = false := by
      simp [ha, hs, jsTruthy_some_true a hna, jsTruthy_some_true s hns]
    refine ⟨{ accessKey := jsStr config.accessKey, secretKey := jsStr config.secretKey,
              baseUrl := "https://api.apexxcloud.com", region := config.region,
              defaultBucket := config.bucket }, ?_, ?_, ?_⟩
    · unfold construct
      simp [hc]
    · simp [ha, jsStr]
    · simp [hs, jsStr]

/-- Witness for C4: a config missing `accessKey` is rejected, a config
with both keys is accepted. -/
theorem C4_construct_requires_keys_witness :
    construct { secretKey := some "test-secret" } =
      .error "Access key and secret key are required" ∧
    ∃ c : ClientConfig,
      construct { accessKey := some "test-access", secretKey := some "test-secret" } = .ok c ∧
      c.accessKey = "test-access" ∧ c.secretKey = "test-secret" :=
  ⟨C4_construct_requires_keys.1 _ (Or.inl rfl),
   C4_construct_requires_keys.2 _ "test-access" "test-secret" rfl (by decide) rfl (by decide)⟩

/-- C5: `uploadPart`, `completeMultipartUpload` and
`cancelMultipartUpload` fail synchronously — returning a validation
error instead of a built request, so the transport is never called —
when `uploadId` or `key` is missing, with the exact message naming the
missing field and the operation. -/
theorem C5_multipart_missing_field_validation :
    (∀ (cfg : ClientConfig) (key : Option String) (filePart : Option (List Nat))
        (options : UploadPartOptions) (now : String),
        jsTruthy options.uploadId = false →
        uploadPart cfg key filePart options now =
          .error "uploadId is required for upload part") ∧
    (∀ (cfg : ClientConfig) (key : Option String) (filePart : Option (List Nat))
        (options : UploadPartOptions) (now : String),
        jsTruthy options.uploadId = true → jsTruthyNat options.partNumber = true →
        jsTruthy key = false →
        uploadPart cfg key filePart options now =
          .error "key is required for upload part") ∧
    (∀ (cfg : ClientConfig) (key : Option String) (parts : Option (List Part))
        (options : MultipartEndOptions) (now : String),
        jsTruthy options.uploadId = false →
        completeMultipartUpload cfg key parts options now =
          .error "uploadId is required for complete multipart upload") ∧
    (∀ (cfg : ClientConfig) (key : Option String) (parts : List Part)
        (options : MultipartEndOptions) (now : String),
        jsTruthy options.uploadId = true → jsTruthy key = false →
        completeMultipartUpload cfg key (some parts) options now =
          .error "key is required for complete multipart upload") ∧
    (∀ (cfg : ClientConfig) (key : Option String)
        (options : MultipartEndOptions) (now : String),
        jsTruthy options.uploadId = false →
        cancelMultipartUpload cfg key options now =
          .error "uploadId is required for cancel multipart upload") ∧
    (∀ (cfg : ClientConfig) (key : Option String)
        (options : MultipartEndOptions) (now : String),
        jsTruthy options.uploadId = true → jsTruthy key = false →
        cancelMultipartUpload cfg key options now =
          .error "key is required for cancel multipart upload") := by
  refine ⟨?_, ?_, ?_, ?_, ?_, ?_⟩
  · intro cfg key filePart options now h
    simp [uploadPart, h]
  · intro cfg key filePart options now h1 h2 h3
    simp [uploadPart, h1, h2, h3]
  · intro cfg key parts options now h
    simp [completeMultipartUpload, h]
  · intro cfg key parts options now h1 h2
    simp [completeMultipartUpload, h1, h2]
  · intro cfg key options now h
    simp [cancelMultipartUpload, h]
  · intro cfg key options now h1 h2
    simp [cancelMultipartUpload, h1, h2]

/-- Witness for C5: each validation fires on a concrete call. -/
theorem C5_multipart_missing_field_validation_witness :
    uploadPart cfgEx (some "k") (some []) { partNumber := some 1, totalParts := some 2 } tsEx =
      .error "uploadId is required for upload part" ∧
    uploadPart cfgEx none (some [])
        { uploadId := some "u1", partNumber := some 1, totalParts := some 2 } tsEx =
      .error "key is required for upload part" ∧
    completeMultipartUpload cfgEx (some "k") (some []) {} tsEx =
      .error "uploadId is required for complete multipart upload" ∧
    completeMultipartUpload cfgEx none (some []) { uploadId := some "u1" } tsEx =
      .error "key is required for complete multipart upload" ∧
    cancelMultipartUpload cfgEx (some "k") {} tsEx =
      .error "uploadId is required for cancel multipart upload" ∧
    cancelMultipartUpload cfgEx none { uploadId := some "u1" } tsEx =
      .error "key is required for cancel multipart upload" :=
  ⟨C5_multipart_missing_field_validation.1 cfgEx (some "k") (some []) _ tsEx rfl,
   C5_multipart_missing_field_validation.2.1 cfgEx none (some []) _ tsEx rfl rfl rfl,
   C5_multipart_missing_field_validation.2.2.1 cfgEx (some "k") (some []) _ tsEx rfl,
   C5_multipart_missing_field_validation.2.2.2.1 cfgEx none [] _ tsEx rfl rfl,
   C5_multipart_missing_field_validation.2.2.2.2.1 cfgEx (some "k") _ tsEx rfl,
   C5_multipart_missing_field_validation.2.2.2.2.2 cfgEx none _ tsEx rfl rfl⟩

/-- C6: for every `type` outside the supported list and any options,
`generateSignedUrl` fails with exactly
`"Unsupported operation type: " ++ type`, without building a request. -/
theorem C6_generateSignedUrl_unsupported_type (cfg : ClientConfig) (type : String)
    (options : SignedUrlOptions) (now : String) (h : type ∉ validOperations) :
    generateSignedUrl cfg type options now =
      .error ("Unsupported operation type: " ++ type) := by
  have hb : validOperations.contains type = false := by simpa using h
  unfold generateSignedUrl
  simp [hb]
  intro hmem
  exact absurd hmem h

/-- Witness for C6 at `type = "invalid-type"`. -/
theorem C6_generateSignedUrl_unsupported_type_witness :
    "invalid-type" ∉ validOperations ∧
    generateSignedUrl cfgEx "invalid-type" {} tsEx =
      .error ("Unsupported operation type: " ++ "invalid-type") :=
  ⟨by decide, C6_generateSignedUrl_unsupported_type cfgEx "invalid-type" {} tsEx (by decide)⟩

/-- C7: every operation's query-parameter list starts with `bucket_name`
(per-call argument, else the configured default bucket) followed by
`region` (per-call argument, else the configured region), with the
operation-specific parameters appended after those two in the
operation's fixed order (the serializer `urlSearchParamsString` is
order-preserving, see `urlSearchParamsString_append`); a supplied
non-empty per-call value is used verbatim, and an absent one falls back
to the configured value. -/
theorem C7_query_params_bucket_region_first :
    (∀ (cfg : ClientConfig) (options : UploadOptions), ∃ rest,
        uploadFileParams cfg options =
          ("bucket_name", jsStr (jsOr options.bucketName cfg.defaultBucket)) ::
          ("region", jsStr (jsOr options.region cfg.region)) :: rest) ∧
    (∀ (cfg : ClientConfig) (key : Option String) (options : KeyedOptions), ∃ rest,
        deleteFileParams cfg key options =
          ("bucket_name", jsStr (jsOr options.bucketName cfg.defaultBucket)) ::
          ("region", jsStr (jsOr options.region cfg.region)) :: rest) ∧
    (∀ (cfg : ClientConfig) (key : Option String) (options : StartMultipartOptions), ∃ rest,
        startMultipartParams cfg key options =
          ("bucket_name", jsStr (jsOr options.bucketName cfg.defaultBucket)) ::
          ("region", jsStr (jsOr options.region cfg.region)) :: rest) ∧
    (∀ (cfg : ClientConfig) (key : Option String) (options : UploadPartOptions), ∃ rest,
        uploadPartParams cfg key options =
          ("bucket_name", jsStr (jsOr options.bucketName cfg.defaultBucket)) ::
          ("region", jsStr (jsOr options.region cfg.region)) :: rest) ∧
    (∀ (cfg : ClientConfig) (key : Option String) (options : MultipartEndOptions), ∃ rest,
        multipartEndParams cfg key options =
          ("bucket_name", jsStr (jsOr options.bucketName cfg.defaultBucket)) ::
          ("region", jsStr (jsOr options.region cfg.region)) :: rest) ∧
    (∀ (cfg : ClientConfig) (options : GetContentsOptions), ∃ rest,
        getBucketContentsParams cfg options =
          ("bucket_name", jsStr (jsOr options.bucketName cfg.defaultBucket)) ::
          ("region", jsStr (jsOr options.region cfg.region)) :: rest) ∧
    (∀ (cfg : ClientConfig) (options : SignedUrlOptions), ∃ rest,
        signedUrlBaseParams cfg options =
          ("bucket_name", jsStr (jsOr options.bucketName cfg.defaultBucket)) ::
          ("region", jsStr (jsOr options.region cfg.region)) :: rest) ∧
    (∀ (b : String) (d : Option String), b ≠ "" → jsStr (jsOr (some b) d) = b) ∧
    (∀ d : Option String, jsOr none d = d) := by
  refine ⟨fun cfg options => ⟨_, rfl⟩, fun cfg key options => ⟨_, rfl⟩,
          fun cfg key options => ⟨_, rfl⟩, fun cfg key options => ⟨_, rfl⟩,
          fun cfg key options => ⟨_, rfl⟩, fun cfg options => ⟨_, rfl⟩,
          fun cfg options => ⟨_, rfl⟩, ?_, fun d => rfl⟩
  intro b d h
  simp [jsOr, jsTruthy_some_true b h, jsStr]

/-- Witness for C7: the start of `uploadFile`'s parameter list on a
concrete call, and verbatim use of a supplied bucket name. -/
theorem C7_query_params_bucket_region_first_witness :
    (∃ rest,
      uploadFileParams cfgEx { key := some "k" } =
        ("bucket_name",
          jsStr (jsOr (UploadOptions.key { key := some "k" } |> fun _ => none) cfgEx.defaultBucket)) ::
        ("region", jsStr (jsOr none cfgEx.region)) :: rest) ∧
    jsStr (jsOr (some "b") (some "db")) = "b" := by
  have h2 := (C7_query_params_bucket_region_first).2.2.2.2.2.2.2.1 "b" (some "db") (by decide)
  have h1 := (C7_query_params_bucket_region_first).1 cfgEx { key := some "k" }
  exact ⟨h1, h2⟩

/-- C8: `generateSignedUrl('download', options)` with a present key does
not produce a URL: it immediately issues a signed GET request to
`/api/v1/files/signed-url` whose query is `bucket_name`, `region`,
`key`, then `expiresIn` (3600 when unset); the transport's response body
is what the call resolves with (`makeRequestOutcome`). -/
theorem C8_generateSignedUrl_download (cfg : ClientConfig) (options : SignedUrlOptions)
    (now : String) (h : jsTruthy options.key = true) :
    generateSignedUrl cfg "download" options now =
      .ok (.request (makeRequest cfg "GET"
        ("/api/v1/files/signed-url?" ++ urlSearchParamsString
          (signedUrlBaseParams cfg options ++
            [("expiresIn", toString (jsOrNat options.expiresIn 3600))])) now)) ∧
    ((signedUrlBaseParams cfg options ++
        [("expiresIn", toString (jsOrNat options.expiresIn 3600))]).map Prod.fst =
      ["bucket_name", "region", "key", "expiresIn"]) ∧
    (options.expiresIn = none → toString (jsOrNat options.expiresIn 3600) = "3600") ∧
    (∀ u, generateSignedUrl cfg "download" options now ≠ .ok (.url u)) := by
  have h1 : generateSignedUrl cfg "download" options now =
      .ok (.request (makeRequest cfg "GET"
        ("/api/v1/files/signed-url?" ++ urlSearchParamsString
          (signedUrlBaseParams cfg options ++
            [("expiresIn", toString (jsOrNat options.expiresIn 3600))])) now)) := by
    unfold generateSignedUrl
    simp [h]
    decide
  refine ⟨h1, rfl, ?_, ?_⟩
  · intro he
    rw [he]
    rfl
  · intro u hu
    rw [h1] at hu
    simp at hu

/-- Witness for C8 at `options = {key: 'k'}` on `cfgEx`. -/
theorem C8_generateSignedUrl_download_witness :
    jsTruthy (SignedUrlOptions.key { key := some "k" }) = true ∧
    (generateSignedUrl cfgEx "download" { key := some "k" } tsEx =
      .ok (.request (makeRequest cfgEx "GET"
        ("/api/v1/files/signed-url?" ++ urlSearchParamsString
          (signedUrlBaseParams cfgEx { key := some "k" } ++
            [("expiresIn",
              toString (jsOrNat (SignedUrlOptions.expiresIn { key := some "k" }) 3600))])) tsEx)) ∧
     ((signedUrlBaseParams cfgEx { key := some "k" } ++
        [("expiresIn",
          toString (jsOrNat (SignedUrlOptions.expiresIn { key := some "k" }) 3600))]).map Prod.fst =
       ["bucket_name", "region", "key", "expiresIn"]) ∧
     (SignedUrlOptions.expiresIn { key := some "k" } = none →
       toString (jsOrNat (SignedUrlOptions.expiresIn { key := some "k" }) 3600) = "3600") ∧
     (∀ u, generateSignedUrl cfgEx "download" { key := some "k" } tsEx ≠ .ok (.url u))) :=
  ⟨rfl, C8_generateSignedUrl_download cfgEx { key := some "k" } tsEx rfl⟩

/-- C10: with no default bucket or region configured (client built from
credentials only) and none supplied per call, no operation raises a
validation error — each still builds and sends its request, whose query
string carries the literal pairs `bucket_name=undefined` and
`region=undefined` produced by stringifying the absent values. -/
theorem C10_undefined_bucket_region_sent :
    construct { accessKey := some "test-access", secretKey := some "test-secret" } =
      .ok cfgBare ∧
    pathOf (getBucketContents cfgBare {} tsEx) =
      some "/api/v1/files/contents?bucket_name=undefined&region=undefined&prefix=&page=1&limit=20" ∧
    pathOf (deleteFile cfgBare (some "k") {} tsEx) =
      some "/api/v1/files/delete?bucket_name=undefined&region=undefined&key=k" ∧
    pathOf (purgeFile cfgBare (some "k") {} tsEx) =
      some "/api/v1/files/purge?bucket_name=undefined&region=undefined&key=k" ∧
    pathOf (uploadFile cfgBare (some []) { key := some "k" } tsEx) =
      some "/api/v1/files/upload?bucket_name=undefined&region=undefined&visibility=public&key=k" ∧
    pathOf (startMultipartUpload cfgBare (some "k") { totalParts := some 2 } tsEx) =
      some "/api/v1/files/multipart/start?bucket_name=undefined&region=undefined&key=k&mimeType=application%2Foctet-stream&visibility=public&totalParts=2" ∧
    pathOf (uploadPart cfgBare (some "k") (some [])
        { uploadId := some "u1", partNumber := some 1, totalParts := some 2 } tsEx) =
      some "/api/v1/files/multipart/u1?bucket_name=undefined&region=undefined&partNumber=1&key=k&totalParts=2" ∧
    pathOf (completeMultipartUpload cfgBare (some "k") (some []) { uploadId := some "u1" } tsEx) =
      some "/api/v1/files/multipart/u1/complete?bucket_name=undefined&region=undefined&key=k" ∧
    pathOf (cancelMultipartUpload cfgBare (some "k") { uploadId := some "u1" } tsEx) =
      some "/api/v1/files/multipart/u1?bucket_name=undefined&region=undefined&key=k" :=
  ⟨rfl, rfl, rfl, rfl, rfl, rfl, rfl, rfl, rfl⟩

/-- C3 counterexample: a response whose body HAS a `message` field, but
an empty-string (falsy) one, is mapped to the serialized body — not to
the message — because the source uses `data.message || JSON.stringify(data)`;
the claim's case split on mere presence of the `message` field is
therefore false for this input. -/
theorem C3_error_mapping_counterexample :
    returnedMessage (handleError errFalsyMessageEx) =
      some "API Error 404: \x7b\"message\":\"\"\x7d" ∧
    returnedMessage (handleError errFalsyMessageEx) ≠ some "API Error 404: " := by
  have hs : jsonStringify (Json.obj [("message", Json.str "")]) = "\x7b\"message\":\"\"\x7d" := by
    simp [jsonStringify, jsonMembers, jsonQuote]
    decide
  constructor
  · simp [errFalsyMessageEx, handleError, propAccess, returnedMessage, jsonTruthy,
      empty_isEmpty, List.lookup, hs]
    decide
  · simp [errFalsyMessageEx, handleError, propAccess, returnedMessage, jsonTruthy,
      empty_isEmpty, List.lookup, hs]
    decide

/-- C3 (amended): with a response carrying a non-null body, the
rejection message is `API Error <status>: <message>` when the body's
`message` field is a truthy (non-empty) string, and
`API Error <status>: <serialized body>` when the `message` field is
absent — or present but falsy, such as the empty string; a `null` body
instead makes `handleError` throw (the `data.message` read raises a
`TypeError`), and that thrown exception becomes the rejection; a
transport failure without a response is propagated to the caller
unchanged; every operation settles its transport rejection through
`handleError` (`makeRequestOutcome`), rejecting with the returned error
or, on the null-body path, with the thrown one.  Concrete instance:
status 404 with body `{message: 'Not found'}` yields exactly
`"API Error 404: Not found"`. -/
theorem C3_error_mapping :
    (∀ (m s : String) (status : Nat) (data : Json),
        propAccess data "message" = .ok (some (.str s)) → s ≠ "" →
        returnedMessage (handleError { message := m, response := some (status, data) }) =
          some ("API Error " ++ toString status ++ ": " ++ s)) ∧
    (∀ (m : String) (status : Nat) (data : Json),
        propAccess data "message" = .ok none →
        returnedMessage (handleError { message := m, response := some (status, data) }) =
          some ("API Error " ++ toString status ++ ": " ++ jsonStringify data)) ∧
    (∀ (m : String) (status : Nat) (data : Json),
        propAccess data "message" = .ok (some (.str "")) →
        returnedMessage (handleError { message := m, response := some (status, data) }) =
          some ("API Error " ++ toString status ++ ": " ++ jsonStringify data)) ∧
    (∀ (m : String) (status : Nat), ∃ thrown : JsError,
        handleError { message := m, response := some (status, Json.null) } = .error thrown) ∧
    (returnedMessage (handleError
        { message := "Request failed with status code 404",
          response := some (404, Json.obj [("message", Json.str "Not found")]) }) =
      some "API Error 404: Not found") ∧
    (∀ e : JsError, e.response = none → handleError e = .ok e) ∧
    (∀ (e mapped : JsError), handleError e = .ok mapped →
        makeRequestOutcome (.error e) = .error mapped) ∧
    (∀ (e thrown : JsError), handleError e = .error thrown →
        makeRequestOutcome (.error e) = .error thrown) ∧
    (∀ d : Json, makeRequestOutcome (.ok d) = .ok d) := by
  refine ⟨?_, ?_, ?_, fun m status => ⟨_, rfl⟩, ?_, ?_, ?_, ?_, fun d => rfl⟩
  · intro m s status data h hs
    simp [handleError, returnedMessage, h, jsonTruthy, isEmpty_false_of_ne s hs, jsTemplate]
  · intro m status data h
    simp [handleError, returnedMessage, h]
  · intro m status data h
    simp [handleError, returnedMessage, h, jsonTruthy, empty_isEmpty]
  · simp [handleError, returnedMessage, propAccess, jsonTruthy, List.lookup, jsTemplate,
      isEmpty_false_of_ne "Not found" (by decide)]
    decide
  · intro e h
    cases e with
    | mk m r => simp at h; simp [handleError, h]
  · intro e mapped h
    simp [makeRequestOutcome, h]
  · intro e thrown h
    simp [makeRequestOutcome, h]

/-- Witness for C3 at a truthy message, an absent message, a falsy
message, a `null` body (thrown `TypeError` becoming the rejection) and
a response-less error. -/
theorem C3_error_mapping_witness :
    (propAccess (Json.obj [("message", Json.str "Not found")]) "message" =
        .ok (some (.str "Not found")) ∧ "Not found" ≠ "") ∧
    returnedMessage (handleError
        { message := "boom",
          response := some (404, Json.obj [("message", Json.str "Not found")]) }) =
      some ("API Error " ++ toString 404 ++ ": " ++ "Not found") ∧
    returnedMessage (handleError { message := "boom", response := some (500, Json.str "oops") }) =
      some ("API Error " ++ toString 500 ++ ": " ++ jsonStringify (Json.str "oops")) ∧
    returnedMessage (handleError errFalsyMessageEx) =
      some ("API Error " ++ toString 404 ++ ": " ++
        jsonStringify (Json.obj [("message", Json.str "")])) ∧
    handleError { message := "socket hang up" } = .ok { message := "socket hang up" } ∧
    makeRequestOutcome (.error { message := "socket hang up" }) =
      .error { message := "socket hang up" } ∧
    (∃ thrown : JsError,
      makeRequestOutcome (.error { message := "boom", response := some (500, Json.null) }) =
        .error thrown) :=
  ⟨⟨rfl, by decide⟩,
   C3_error_mapping.1 "boom" "Not found" 404
     (Json.obj [("message", Json.str "Not found")]) rfl (by decide),
   C3_error_mapping.2.1 "boom" 500 (Json.str "oops") rfl,
   C3_error_mapping.2.2.1 "Request failed" 404 (Json.obj [("message", Json.str "")]) rfl,
   C3_error_mapping.2.2.2.2.2.1 { message := "socket hang up" } rfl,
   C3_error_mapping.2.2.2.2.2.2.1 { message := "socket hang up" }
     { message := "socket hang up" } rfl,
   ⟨_, C3_error_mapping.2.2.2.2.2.2.2.1
     { message := "boom", response := some (500, Json.null) } _ rfl⟩⟩

set_option maxRecDepth 40000 in
/-- C2 counterexample: on `generateSignedUrl('upload', {bucketName: 'b',
key: 'k', visibility: 'private'})` the returned URL's embedded
`signature` is `sigUploadEx`, but the HMAC over
`method \n P \n timestamp` with `P` the exact path+query the eventual
caller of the URL sends (`callerPathUploadEx`, which includes the
appended `access_key`, `signature` and `timestamp` parameters) is a
different digest: the source signs the path+query as it stood before
the auth parameters were appended. -/
theorem C2_signedUrl_signature_counterexample :
    generateSignedUrl cfgEx "upload"
        { bucketName := some "b", key := some "k", visibility := some "private" } tsEx =
      .ok (.url urlUploadEx) ∧
    urlUploadEx = cfgEx.baseUrl ++ callerPathUploadEx ∧
    containsStr urlUploadEx ("&signature=" ++ sigUploadEx ++ "&") = true ∧
    Crypto.hmacSha256Hex cfgEx.secretKey ("PUT" ++ "\n" ++ callerPathUploadEx ++ "\n" ++ tsEx) ≠
      sigUploadEx := by
  refine ⟨by decide, rfl, by decide, by decide⟩

set_option maxRecDepth 40000 in
/-- C2 (amended): every URL-producing `generateSignedUrl` type, on
options passing its validation, performs no transport call and returns
`baseUrl ++ path ++ "?" ++ Q` where `Q` ends with `access_key`,
`signature`, `timestamp` as its last three parameters, and the embedded
signature is the hex HMAC-SHA256, keyed by the configured secret key,
over `method \n P \n timestamp` with `P` the path+query as it stands
BEFORE the auth parameters are appended (the serializer is
order-preserving and appends the auth parameters at the end, see the
serialization conjunct).  Concretely, the `upload` type with
`{bucketName: 'b', key: 'k', visibility: 'private'}` yields a URL
containing `bucket_name=b`, `key=k`, `visibility=private`, the
configured `access_key` and a non-empty `signature`. -/
theorem C2_signedUrl_structure :
    (∀ (cfg : ClientConfig) (options : SignedUrlOptions) (now : String), ∃ q sig,
        generateSignedUrl cfg "upload" options now =
          .ok (.url (cfg.baseUrl ++ "/api/v1/files/upload" ++ "?" ++
            urlSearchParamsString
              (q ++ [("access_key", cfg.accessKey), ("signature", sig), ("timestamp", now)]))) ∧
        sig = Crypto.hmacSha256Hex cfg.secretKey
          ("PUT" ++ "\n" ++ ("/api/v1/files/upload" ++ "?" ++ urlSearchParamsString q) ++
            "\n" ++ now)) ∧
    (∀ (cfg : ClientConfig) (options : SignedUrlOptions) (now : String),
        jsTruthy options.key = true → ∃ q sig,
        generateSignedUrl cfg "delete" options now =
          .ok (.url (cfg.baseUrl ++ "/api/v1/files/delete" ++ "?" ++
            urlSearchParamsString
              (q ++ [("access_key", cfg.accessKey), ("signature", sig), ("timestamp", now)]))) ∧
        sig = Crypto.hmacSha256Hex cfg.secretKey
          ("DELETE" ++ "\n" ++ ("/api/v1/files/delete" ++ "?" ++ urlSearchParamsString q) ++
            "\n" ++ now)) ∧
    (∀ (cfg : ClientConfig) (options : SignedUrlOptions) (now : String),
        jsTruthy options.key = true → jsTruthyNat options.totalParts = true →
        jsTruthy options.mimeType = true → ∃ q sig,
        generateSignedUrl cfg "start-multipart" options now =
          .ok (.url (cfg.baseUrl ++ "/api/v1/files/multipart/start" ++ "?" ++
            urlSearchParamsString
              (q ++ [("access_key", cfg.accessKey), ("signature", sig), ("timestamp", now)]))) ∧
        sig = Crypto.hmacSha256Hex cfg.secretKey
          ("POST" ++ "\n" ++
            ("/api/v1/files/multipart/start" ++ "?" ++ urlSearchParamsString q) ++
            "\n" ++ now)) ∧
    (∀ (cfg : ClientConfig) (options : SignedUrlOptions) (now : String),
        jsTruthy options.uploadId = true → jsTruthyNat options.partNumber = true →
        jsTruthy options.key = true → jsTruthyNat options.totalParts = true → ∃ q sig,
        generateSignedUrl cfg "uploadpart" options now =
          .ok (.url (cfg.baseUrl ++ ("/api/v1/files/multipart/" ++ jsStr options.uploadId) ++
            "?" ++ urlSearchParamsString
              (q ++ [("access_key", cfg.accessKey), ("signature", sig), ("timestamp", now)]))) ∧
        sig = Crypto.hmacSha256Hex cfg.secretKey
          ("POST" ++ "\n" ++
            (("/api/v1/files/multipart/" ++ jsStr options.uploadId) ++ "?" ++
              urlSearchParamsString q) ++
            "\n" ++ now)) ∧
    (∀ (cfg : ClientConfig) (options : SignedUrlOptions) (now : String),
        jsTruthy options.uploadId = true → jsTruthy options.key = true → ∃ q sig,
        generateSignedUrl cfg "completemultipart" options now =
          .ok (.url (cfg.baseUrl ++
            ("/api/v1/files/multipart/" ++ jsStr options.uploadId ++ "/complete") ++ "?" ++
            urlSearchParamsString
              (q ++ [("access_key", cfg.accessKey), ("signature", sig), ("timestamp", now)]))) ∧
        sig = Crypto.hmacSha256Hex cfg.secretKey
          ("POST" ++ "\n" ++
            (("/api/v1/files/multipart/" ++ jsStr options.uploadId ++ "/complete") ++ "?" ++
              urlSearchParamsString q) ++
            "\n" ++ now)) ∧
    (∀ (cfg : ClientConfig) (options : SignedUrlOptions) (now : String),
        jsTruthy options.uploadId = true → jsTruthy options.key = true → ∃ q sig,
        generateSignedUrl cfg "cancelmultipart" options now =
          .ok (.url (cfg.baseUrl ++ ("/api/v1/files/multipart/" ++ jsStr options.uploadId) ++
            "?" ++ urlSearchParamsString
              (q ++ [("access_key", cfg.accessKey), ("signature", sig), ("timestamp", now)]))) ∧
        sig = Crypto.hmacSha256Hex cfg.secretKey
          ("DELETE" ++ "\n" ++
            (("/api/v1/files/multipart/" ++ jsStr options.uploadId) ++ "?" ++
              urlSearchParamsString q) ++
            "\n" ++ now)) ∧
    (∀ (ps qs : List (String × String)), ps ≠ [] → qs ≠ [] →
        urlSearchParamsString (ps ++ qs) =
          urlSearchParamsString ps ++ "&" ++ urlSearchParamsString qs) ∧
    (generateSignedUrl cfgEx "upload"
        { bucketName := some "b", key := some "k", visibility := some "private" } tsEx =
      .ok (.url urlUploadEx) ∧
     containsStr urlUploadEx "bucket_name=b" = true ∧
     containsStr urlUploadEx "key=k" = true ∧
     containsStr urlUploadEx "visibility=private" = true ∧
     containsStr urlUploadEx ("access_key=" ++ cfgEx.accessKey) = true ∧
     containsStr urlUploadEx ("signature=" ++ sigUploadEx) = true ∧
     sigUploadEx ≠ "") := by
  refine ⟨?_, ?_, ?_, ?_, ?_, ?_, urlSearchParamsString_append,
         by decide, by decide, by decide, by decide, by decide, by decide, by decide⟩
  · intro cfg options now
    exact ⟨_, _, rfl, rfl⟩
  · intro cfg options now hk
    have hc : generateSignedUrl cfg "delete" options now =
        finishSignedUrl cfg "DELETE" "/api/v1/files/delete"
          (signedUrlBaseParams cfg options) now := by
      unfold generateSignedUrl
      simp [hk]
      intro hmem
      exact absurd (by decide) hmem
    exact ⟨_, _, hc.trans rfl, rfl⟩
  · intro cfg options now hk ht hm
    have hc : generateSignedUrl cfg "start-multipart" options now =
        finishSignedUrl cfg "POST" "/api/v1/files/multipart/start"
          (signedUrlBaseParams cfg options ++
            [("totalParts", jsStrNat options.totalParts),
             ("mimeType", jsStr options.mimeType),
             ("visibility", jsStr (jsOr options.visibility (some "public")))]) now := by
      unfold generateSignedUrl
      simp [hk, ht, hm]
      intro hmem
      exact absurd (by decide) hmem
    exact ⟨_, _, hc.trans rfl, rfl⟩
  · intro cfg options now hu hp hk ht
    have hc : generateSignedUrl cfg "uploadpart" options now =
        finishSignedUrl cfg "POST" ("/api/v1/files/multipart/" ++ jsStr options.uploadId)
          (signedUrlBaseParams cfg options ++
            [("partNumber", jsStrNat options.partNumber),
             ("totalParts", jsStrNat options.totalParts)]) now := by
      unfold generateSignedUrl
      simp [hu, hp, hk, ht]
      intro hmem
      exact absurd (by decide) hmem
    exact ⟨_, _, hc.trans rfl, rfl⟩
  · intro cfg options now hu hk
    have hc : generateSignedUrl cfg "completemultipart" options now =
        finishSignedUrl cfg "POST"
          ("/api/v1/files/multipart/" ++ jsStr options.uploadId ++ "/complete")
          (signedUrlBaseParams cfg options) now := by
      unfold generateSignedUrl
      simp [hu, hk]
      intro hmem
      exact absurd (by decide) hmem
    exact ⟨_, _, hc.trans rfl, rfl⟩
  · intro cfg options now hu hk
    have hc : generateSignedUrl cfg "cancelmultipart" options now =
        finishSignedUrl cfg "DELETE" ("/api/v1/files/multipart/" ++ jsStr options.uploadId)
          (signedUrlBaseParams cfg options) now := by
      unfold generateSignedUrl
      simp [hu, hk]
      intro hmem
      exact absurd (by decide) hmem
    exact ⟨_, _, hc.trans rfl, rfl⟩

/-- Witness for C2 at the `delete` type with `{key: 'k'}` on `cfgEx`. -/
theorem C2_signedUrl_structure_witness :
    jsTruthy (SignedUrlOptions.key { key := some "k" }) = true ∧
    (∃ q sig,
      generateSignedUrl cfgEx "delete" { key := some "k" } tsEx =
        .ok (.url (cfgEx.baseUrl ++ "/api/v1/files/delete" ++ "?" ++
          urlSearchParamsString
            (q ++ [("access_key", cfgEx.accessKey), ("signature", sig),
                   ("timestamp", tsEx)]))) ∧
      sig = Crypto.hmacSha256Hex cfgEx.secretKey
        ("DELETE" ++ "\n" ++ ("/api/v1/files/delete" ++ "?" ++ urlSearchParamsString q) ++
          "\n" ++ tsEx)) :=
  ⟨rfl, C2_signedUrl_structure.2.1 cfgEx { key := some "k" } tsEx rfl⟩

set_option maxRecDepth 40000 in
/-- C9: the source does NOT validate `key` for the `upload` signed-URL
type: with `key` absent the call still returns a URL — carrying the
literal `key=undefined` in its query, with `visibility` defaulted to
`public` — instead of the validation error naming `key` that the claim,
the function's own JSDoc (which marks `options.key` as required) and
every sibling operation type prescribe. -/
theorem C9_signedUrl_upload_missing_key_behaviour :
    generateSignedUrl cfgEx "upload" { bucketName := some "b" } tsEx =
      .ok (.url urlUploadNoKeyEx) ∧
    containsStr urlUploadNoKeyEx "key=undefined" = true ∧
    containsStr urlUploadNoKeyEx "visibility=public" = true :=
  ⟨by decide, by decide, by decide⟩

end Sdk
